import Mathlib

set_option maxRecDepth 100000
set_option maxHeartbeats 1000000

/-!
Shallow embedding of the marching-cubes isosurface extractor in
`src/marching_cubes.py` and proofs of its specified properties.

Modelling conventions:

* Real-valued program quantities (scalar-field values, the isovalue, volume
  bounds, stepsize, vertex coordinates) are modelled as rationals `ℚ`; every
  operation the program performs on them (`+`, `-`, `*`, `/`, `<`) is exact
  in the embedding.
* Python list indexing `l[i]` is modelled by `pyGet`: a negative index
  addresses from the end of the list, and an index out of range raises
  `IndexError`, modelled as `none`.
* `np.arange(start, stop, step)` is modelled by `arange`, following numpy's
  documented semantics: the values `start + i * step` for
  `0 ≤ i < ⌈(stop - start) / step⌉` (an empty list when that count is not
  positive).  numpy rejects `step = 0`; no call below passes it.
* `glm.normalize` is an external library routine whose result on the zero
  vector is undefined; the embedding of `compute_normals` therefore takes
  the normalization function as an explicit parameter, so that the theorems
  hold for whatever value the library returns.
* `writePLY` performs file I/O; its embedding returns the structured content
  of the file it writes (header counts, per-vertex records, per-face
  records) instead of performing the write.
-/

/-- Python list indexing `l[i]`: a nonnegative index selects from the front,
a negative index addresses from the end of the list, and an index out of
range in either direction raises `IndexError` (modelled as `none`). -/
def pyGet {α : Type} (l : List α) (i : Int) : Option α :=
  if 0 ≤ i then l.get? i.toNat
  else if 0 ≤ i + l.length then l.get? (i + l.length).toNat
  else none

/-- The 256-entry case table from `_lookup_configuration` (lines 42-299 of
`src/marching_cubes.py`), transcribed row for row: entry `c` lists the edge
indices whose midpoints form the triangles of configuration `c`, three
consecutive indices per triangle. -/
def lookup_table : List (List Nat) := [
  [],
  [0, 8, 3],
  [0, 1, 9],
  [1, 8, 3, 9, 8, 1],
  [1, 2, 10],
  [0, 8, 3, 1, 2, 10],
  [9, 2, 10, 0, 2, 9],
  [2, 8, 3, 2, 10, 8, 10, 9, 8],
  [3, 11, 2],
  [0, 11, 2, 8, 11, 0],
  [1, 9, 0, 2, 3, 11],
  [1, 11, 2, 1, 9, 11, 9, 8, 11],
  [3, 10, 1, 11, 10, 3],
  [0, 10, 1, 0, 8, 10, 8, 11, 10],
  [3, 9, 0, 3, 11, 9, 11, 10, 9],
  [9, 8, 10, 10, 8, 11],
  [4, 7, 8],
  [4, 3, 0, 7, 3, 4],
  [0, 1, 9, 8, 4, 7],
  [4, 1, 9, 4, 7, 1, 7, 3, 1],
  [1, 2, 10, 8, 4, 7],
  [3, 4, 7, 3, 0, 4, 1, 2, 10],
  [9, 2, 10, 9, 0, 2, 8, 4, 7],
  [2, 10, 9, 2, 9, 7, 2, 7, 3, 7, 9, 4],
  [8, 4, 7, 3, 11, 2],
  [11, 4, 7, 11, 2, 4, 2, 0, 4],
  [9, 0, 1, 8, 4, 7, 2, 3, 11],
  [4, 7, 11, 9, 4, 11, 9, 11, 2, 9, 2, 1],
  [3, 10, 1, 3, 11, 10, 7, 8, 4],
  [1, 11, 10, 1, 4, 11, 1, 0, 4, 7, 11, 4],
  [4, 7, 8, 9, 0, 11, 9, 11, 10, 11, 0, 3],
  [4, 7, 11, 4, 11, 9, 9, 11, 10],
  [9, 5, 4],
  [9, 5, 4, 0, 8, 3],
  [0, 5, 4, 1, 5, 0],
  [8, 5, 4, 8, 3, 5, 3, 1, 5],
  [1, 2, 10, 9, 5, 4],
  [3, 0, 8, 1, 2, 10, 4, 9, 5],
  [5, 2, 10, 5, 4, 2, 4, 0, 2],
  [2, 10, 5, 3, 2, 5, 3, 5, 4, 3, 4, 8],
  [9, 5, 4, 2, 3, 11],
  [0, 11, 2, 0, 8, 11, 4, 9, 5],
  [0, 5, 4, 0, 1, 5, 2, 3, 11],
  [2, 1, 5, 2, 5, 8, 2, 8, 11, 4, 8, 5],
  [10, 3, 11, 10, 1, 3, 9, 5, 4],
  [4, 9, 5, 0, 8, 1, 8, 10, 1, 8, 11, 10],
  [5, 4, 0, 5, 0, 11, 5, 11, 10, 11, 0, 3],
  [5, 4, 8, 5, 8, 10, 10, 8, 11],
  [9, 7, 8, 5, 7, 9],
  [9, 3, 0, 9, 5, 3, 5, 7, 3],
  [0, 7, 8, 0, 1, 7, 1, 5, 7],
  [1, 5, 3, 3, 5, 7],
  [9, 7, 8, 9, 5, 7, 10, 1, 2],
  [10, 1, 2, 9, 5, 0, 5, 3, 0, 5, 7, 3],
  [8, 0, 2, 8, 2, 5, 8, 5, 7, 10, 5, 2],
  [2, 10, 5, 2, 5, 3, 3, 5, 7],
  [7, 9, 5, 7, 8, 9, 3, 11, 2],
  [9, 5, 7, 9, 7, 2, 9, 2, 0, 2, 7, 11],
  [2, 3, 11, 0, 1, 8, 1, 7, 8, 1, 5, 7],
  [11, 2, 1, 11, 1, 7, 7, 1, 5],
  [9, 5, 8, 8, 5, 7, 10, 1, 3, 10, 3, 11],
  [5, 7, 0, 5, 0, 9, 7, 11, 0, 1, 0, 10, 11, 10, 0],
  [11, 10, 0, 11, 0, 3, 10, 5, 0, 8, 0, 7, 5, 7, 0],
  [11, 10, 5, 7, 11, 5],
  [10, 6, 5],
  [0, 8, 3, 5, 10, 6],
  [9, 0, 1, 5, 10, 6],
  [1, 8, 3, 1, 9, 8, 5, 10, 6],
  [1, 6, 5, 2, 6, 1],
  [1, 6, 5, 1, 2, 6, 3, 0, 8],
  [9, 6, 5, 9, 0, 6, 0, 2, 6],
  [5, 9, 8, 5, 8, 2, 5, 2, 6, 3, 2, 8],
  [2, 3, 11, 10, 6, 5],
  [11, 0, 8, 11, 2, 0, 10, 6, 5],
  [0, 1, 9, 2, 3, 11, 5, 10, 6],
  [5, 10, 6, 1, 9, 2, 9, 11, 2, 9, 8, 11],
  [6, 3, 11, 6, 5, 3, 5, 1, 3],
  [0, 8, 11, 0, 11, 5, 0, 5, 1, 5, 11, 6],
  [3, 11, 6, 0, 3, 6, 0, 6, 5, 0, 5, 9],
  [6, 5, 9, 6, 9, 11, 11, 9, 8],
  [5, 10, 6, 4, 7, 8],
  [4, 3, 0, 4, 7, 3, 6, 5, 10],
  [1, 9, 0, 5, 10, 6, 8, 4, 7],
  [10, 6, 5, 1, 9, 7, 1, 7, 3, 7, 9, 4],
  [6, 1, 2, 6, 5, 1, 4, 7, 8],
  [1, 2, 5, 5, 2, 6, 3, 0, 4, 3, 4, 7],
  [8, 4, 7, 9, 0, 5, 0, 6, 5, 0, 2, 6],
  [7, 3, 9, 7, 9, 4, 3, 2, 9, 5, 9, 6, 2, 6, 9],
  [3, 11, 2, 7, 8, 4, 10, 6, 5],
  [5, 10, 6, 4, 7, 2, 4, 2, 0, 2, 7, 11],
  [0, 1, 9, 4, 7, 8, 2, 3, 11, 5, 10, 6],
  [9, 2, 1, 9, 11, 2, 9, 4, 11, 7, 11, 4, 5, 10, 6],
  [8, 4, 7, 3, 11, 5, 3, 5, 1, 5, 11, 6],
  [5, 1, 11, 5, 11, 6, 1, 0, 11, 7, 11, 4, 0, 4, 11],
  [0, 5, 9, 0, 6, 5, 0, 3, 6, 11, 6, 3, 8, 4, 7],
  [6, 5, 9, 6, 9, 11, 4, 7, 9, 7, 11, 9],
  [10, 4, 9, 6, 4, 10],
  [4, 10, 6, 4, 9, 10, 0, 8, 3],
  [10, 0, 1, 10, 6, 0, 6, 4, 0],
  [8, 3, 1, 8, 1, 6, 8, 6, 4, 6, 1, 10],
  [1, 4, 9, 1, 2, 4, 2, 6, 4],
  [3, 0, 8, 1, 2, 9, 2, 4, 9, 2, 6, 4],
  [0, 2, 4, 4, 2, 6],
  [8, 3, 2, 8, 2, 4, 4, 2, 6],
  [10, 4, 9, 10, 6, 4, 11, 2, 3],
  [0, 8, 2, 2, 8, 11, 4, 9, 10, 4, 10, 6],
  [3, 11, 2, 0, 1, 6, 0, 6, 4, 6, 1, 10],
  [6, 4, 1, 6, 1, 10, 4, 8, 1, 2, 1, 11, 8, 11, 1],
  [9, 6, 4, 9, 3, 6, 9, 1, 3, 11, 6, 3],
  [8, 11, 1, 8, 1, 0, 11, 6, 1, 9, 1, 4, 6, 4, 1],
  [3, 11, 6, 3, 6, 0, 0, 6, 4],
  [6, 4, 8, 11, 6, 8],
  [7, 10, 6, 7, 8, 10, 8, 9, 10],
  [0, 7, 3, 0, 10, 7, 0, 9, 10, 6, 7, 10],
  [10, 6, 7, 1, 10, 7, 1, 7, 8, 1, 8, 0],
  [10, 6, 7, 10, 7, 1, 1, 7, 3],
  [1, 2, 6, 1, 6, 8, 1, 8, 9, 8, 6, 7],
  [2, 6, 9, 2, 9, 1, 6, 7, 9, 0, 9, 3, 7, 3, 9],
  [7, 8, 0, 7, 0, 6, 6, 0, 2],
  [7, 3, 2, 6, 7, 2],
  [2, 3, 11, 10, 6, 8, 10, 8, 9, 8, 6, 7],
  [2, 0, 7, 2, 7, 11, 0, 9, 7, 6, 7, 10, 9, 10, 7],
  [1, 8, 0, 1, 7, 8, 1, 10, 7, 6, 7, 10, 2, 3, 11],
  [11, 2, 1, 11, 1, 7, 10, 6, 1, 6, 7, 1],
  [8, 9, 6, 8, 6, 7, 9, 1, 6, 11, 6, 3, 1, 3, 6],
  [0, 9, 1, 11, 6, 7],
  [7, 8, 0, 7, 0, 6, 3, 11, 0, 11, 6, 0],
  [7, 11, 6],
  [7, 6, 11],
  [3, 0, 8, 11, 7, 6],
  [0, 1, 9, 11, 7, 6],
  [8, 1, 9, 8, 3, 1, 11, 7, 6],
  [10, 1, 2, 6, 11, 7],
  [1, 2, 10, 3, 0, 8, 6, 11, 7],
  [2, 9, 0, 2, 10, 9, 6, 11, 7],
  [6, 11, 7, 2, 10, 3, 10, 8, 3, 10, 9, 8],
  [7, 2, 3, 6, 2, 7],
  [7, 0, 8, 7, 6, 0, 6, 2, 0],
  [2, 7, 6, 2, 3, 7, 0, 1, 9],
  [1, 6, 2, 1, 8, 6, 1, 9, 8, 8, 7, 6],
  [10, 7, 6, 10, 1, 7, 1, 3, 7],
  [10, 7, 6, 1, 7, 10, 1, 8, 7, 1, 0, 8],
  [0, 3, 7, 0, 7, 10, 0, 10, 9, 6, 10, 7],
  [7, 6, 10, 7, 10, 8, 8, 10, 9],
  [6, 8, 4, 11, 8, 6],
  [3, 6, 11, 3, 0, 6, 0, 4, 6],
  [8, 6, 11, 8, 4, 6, 9, 0, 1],
  [9, 4, 6, 9, 6, 3, 9, 3, 1, 11, 3, 6],
  [6, 8, 4, 6, 11, 8, 2, 10, 1],
  [1, 2, 10, 3, 0, 11, 0, 6, 11, 0, 4, 6],
  [4, 11, 8, 4, 6, 11, 0, 2, 9, 2, 10, 9],
  [10, 9, 3, 10, 3, 2, 9, 4, 3, 11, 3, 6, 4, 6, 3],
  [8, 2, 3, 8, 4, 2, 4, 6, 2],
  [0, 4, 2, 4, 6, 2],
  [1, 9, 0, 2, 3, 4, 2, 4, 6, 4, 3, 8],
  [1, 9, 4, 1, 4, 2, 2, 4, 6],
  [8, 1, 3, 8, 6, 1, 8, 4, 6, 6, 10, 1],
  [10, 1, 0, 10, 0, 6, 6, 0, 4],
  [4, 6, 3, 4, 3, 8, 6, 10, 3, 0, 3, 9, 10, 9, 3],
  [10, 9, 4, 6, 10, 4],
  [4, 9, 5, 7, 6, 11],
  [0, 8, 3, 4, 9, 5, 11, 7, 6],
  [5, 0, 1, 5, 4, 0, 7, 6, 11],
  [11, 7, 6, 8, 3, 4, 3, 5, 4, 3, 1, 5],
  [9, 5, 4, 10, 1, 2, 7, 6, 11],
  [6, 11, 7, 1, 2, 10, 0, 8, 3, 4, 9, 5],
  [7, 6, 11, 5, 4, 10, 4, 2, 10, 4, 0, 2],
  [3, 4, 8, 3, 5, 4, 3, 2, 5, 10, 5, 2, 11, 7, 6],
  [7, 2, 3, 7, 6, 2, 5, 4, 9],
  [9, 5, 4, 0, 8, 6, 0, 6, 2, 6, 8, 7],
  [3, 6, 2, 3, 7, 6, 1, 5, 0, 5, 4, 0],
  [6, 2, 8, 6, 8, 7, 2, 1, 8, 4, 8, 5, 1, 5, 8],
  [9, 5, 4, 10, 1, 6, 1, 7, 6, 1, 3, 7],
  [1, 6, 10, 1, 7, 6, 1, 0, 7, 8, 7, 0, 9, 5, 4],
  [4, 0, 10, 4, 10, 5, 0, 3, 10, 6, 10, 7, 3, 7, 10],
  [7, 6, 10, 7, 10, 8, 5, 4, 10, 4, 8, 10],
  [6, 9, 5, 6, 11, 9, 11, 8, 9],
  [3, 6, 11, 0, 6, 3, 0, 5, 6, 0, 9, 5],
  [0, 11, 8, 0, 5, 11, 0, 1, 5, 5, 6, 11],
  [6, 11, 3, 6, 3, 5, 5, 3, 1],
  [1, 2, 10, 9, 5, 11, 9, 11, 8, 11, 5, 6],
  [0, 11, 3, 0, 6, 11, 0, 9, 6, 5, 6, 9, 1, 2, 10],
  [11, 8, 5, 11, 5, 6, 8, 0, 5, 10, 5, 2, 0, 2, 5],
  [6, 11, 3, 6, 3, 5, 2, 10, 3, 10, 5, 3],
  [5, 8, 9, 5, 2, 8, 5, 6, 2, 3, 8, 2],
  [9, 5, 6, 9, 6, 0, 0, 6, 2],
  [1, 5, 8, 1, 8, 0, 5, 6, 8, 3, 8, 2, 6, 2, 8],
  [1, 5, 6, 2, 1, 6],
  [1, 3, 6, 1, 6, 10, 3, 8, 6, 5, 6, 9, 8, 9, 6],
  [10, 1, 0, 10, 0, 6, 9, 5, 0, 5, 6, 0],
  [0, 3, 8, 5, 6, 10],
  [10, 5, 6],
  [11, 5, 10, 7, 5, 11],
  [11, 5, 10, 11, 7, 5, 8, 3, 0],
  [5, 11, 7, 5, 10, 11, 1, 9, 0],
  [10, 7, 5, 10, 11, 7, 9, 8, 1, 8, 3, 1],
  [11, 1, 2, 11, 7, 1, 7, 5, 1],
  [0, 8, 3, 1, 2, 7, 1, 7, 5, 7, 2, 11],
  [9, 7, 5, 9, 2, 7, 9, 0, 2, 2, 11, 7],
  [7, 5, 2, 7, 2, 11, 5, 9, 2, 3, 2, 8, 9, 8, 2],
  [2, 5, 10, 2, 3, 5, 3, 7, 5],
  [8, 2, 0, 8, 5, 2, 8, 7, 5, 10, 2, 5],
  [9, 0, 1, 5, 10, 3, 5, 3, 7, 3, 10, 2],
  [9, 8, 2, 9, 2, 1, 8, 7, 2, 10, 2, 5, 7, 5, 2],
  [1, 3, 5, 3, 7, 5],
  [0, 8, 7, 0, 7, 1, 1, 7, 5],
  [9, 0, 3, 9, 3, 5, 5, 3, 7],
  [9, 8, 7, 5, 9, 7],
  [5, 8, 4, 5, 10, 8, 10, 11, 8],
  [5, 0, 4, 5, 11, 0, 5, 10, 11, 11, 3, 0],
  [0, 1, 9, 8, 4, 10, 8, 10, 11, 10, 4, 5],
  [10, 11, 4, 10, 4, 5, 11, 3, 4, 9, 4, 1, 3, 1, 4],
  [2, 5, 1, 2, 8, 5, 2, 11, 8, 4, 5, 8],
  [0, 4, 11, 0, 11, 3, 4, 5, 11, 2, 11, 1, 5, 1, 11],
  [0, 2, 5, 0, 5, 9, 2, 11, 5, 4, 5, 8, 11, 8, 5],
  [9, 4, 5, 2, 11, 3],
  [2, 5, 10, 3, 5, 2, 3, 4, 5, 3, 8, 4],
  [5, 10, 2, 5, 2, 4, 4, 2, 0],
  [3, 10, 2, 3, 5, 10, 3, 8, 5, 4, 5, 8, 0, 1, 9],
  [5, 10, 2, 5, 2, 4, 1, 9, 2, 9, 4, 2],
  [8, 4, 5, 8, 5, 3, 3, 5, 1],
  [0, 4, 5, 1, 0, 5],
  [8, 4, 5, 8, 5, 3, 9, 0, 5, 0, 3, 5],
  [9, 4, 5],
  [4, 11, 7, 4, 9, 11, 9, 10, 11],
  [0, 8, 3, 4, 9, 7, 9, 11, 7, 9, 10, 11],
  [1, 10, 11, 1, 11, 4, 1, 4, 0, 7, 4, 11],
  [3, 1, 4, 3, 4, 8, 1, 10, 4, 7, 4, 11, 10, 11, 4],
  [4, 11, 7, 9, 11, 4, 9, 2, 11, 9, 1, 2],
  [9, 7, 4, 9, 11, 7, 9, 1, 11, 2, 11, 1, 0, 8, 3],
  [11, 7, 4, 11, 4, 2, 2, 4, 0],
  [11, 7, 4, 11, 4, 2, 8, 3, 4, 3, 2, 4],
  [2, 9, 10, 2, 7, 9, 2, 3, 7, 7, 4, 9],
  [9, 10, 7, 9, 7, 4, 10, 2, 7, 8, 7, 0, 2, 0, 7],
  [3, 7, 10, 3, 10, 2, 7, 4, 10, 1, 10, 0, 4, 0, 10],
  [1, 10, 2, 8, 7, 4],
  [4, 9, 1, 4, 1, 7, 7, 1, 3],
  [4, 9, 1, 4, 1, 7, 0, 8, 1, 8, 7, 1],
  [4, 0, 3, 7, 4, 3],
  [4, 8, 7],
  [9, 10, 8, 10, 11, 8],
  [3, 0, 9, 3, 9, 11, 11, 9, 10],
  [0, 1, 10, 0, 10, 8, 8, 10, 11],
  [3, 1, 10, 11, 3, 10],
  [1, 2, 11, 1, 11, 9, 9, 11, 8],
  [3, 0, 9, 3, 9, 11, 1, 2, 9, 2, 11, 9],
  [0, 2, 11, 8, 0, 11],
  [3, 2, 11],
  [2, 3, 8, 2, 8, 10, 10, 8, 9],
  [9, 10, 2, 0, 9, 2],
  [2, 3, 8, 2, 8, 10, 0, 1, 8, 1, 10, 8],
  [1, 10, 2],
  [1, 3, 8, 9, 1, 8],
  [0, 9, 1],
  [0, 3, 8],
  []]

/-- Embedding of `_lookup_configuration(case)` from `src/marching_cubes.py` (lines
24-303): a Python list index into the 256-entry `lookup_table`. -/
def _lookup_configuration (case : Int) : Option (List Nat) :=
  pyGet lookup_table case

/-- Table `edge_midpoints` from `_get_vertex_positions` (lines 328-341): the
relative position on the cube of each of the 12 edge midpoints. -/
def edge_midpoints : List (ℚ × ℚ × ℚ) := [
  (0.5, 0.0, 0.0),
  (1.0, 0.0, 0.5),
  (0.5, 0.0, 1.0),
  (0.0, 0.0, 0.5),
  (0.5, 1.0, 0.0),
  (1.0, 1.0, 0.5),
  (0.5, 1.0, 1.0),
  (0.0, 1.0, 0.5),
  (0.0, 0.5, 0.0),
  (1.0, 0.5, 0.0),
  (1.0, 0.5, 1.0),
  (0.0, 0.5, 1.0)]

/-- Embedding of `_get_vertex_positions(configuration, coordinate, stepsize)` (lines
306-353): for each edge index in the configuration, append the three world
coordinates `origin + stepsize * midpoint offset`.  The Python append loop
is rendered as a `flatMap` of the three appended coordinates per edge
index.  The list access `edge_midpoints[index]` is modelled with a default
value; every caller passes indices in `[0, 11]` (rows of `lookup_table`),
for which the default is never consulted. -/
def _get_vertex_positions (configuration : List Nat) (coordinate : ℚ × ℚ × ℚ)
    (stepsize : ℚ) : List ℚ :=
  let x := coordinate.1
  let y := coordinate.2.1
  let z := coordinate.2.2
  configuration.flatMap (fun index =>
    let m := edge_midpoints.getD index (0, 0, 0)
    [x + stepsize * m.1, y + stepsize * m.2.1, z + stepsize * m.2.2])

/-- Embedding of `np.arange(start, stop, step)` over exact rationals: numpy's documented
semantics, the values `start + i * step` for
`0 ≤ i < ⌈(stop - start) / step⌉`, empty when that count is not positive.
numpy raises on `step = 0`; no call below passes it. -/
def arange (start stop step : ℚ) : List ℚ :=
  (List.range (⌈(stop - start) / step⌉).toNat).map
    (fun i : Nat => start + (i : ℚ) * step)

/-- Corner-to-bit constant from `marching_cubes` (line 387). -/
def FRONT_BOTTOM_LEFT : Nat := 8

/-- Corner-to-bit constant from `marching_cubes` (line 388). -/
def FRONT_BOTTOM_RIGHT : Nat := 4

/-- Corner-to-bit constant from `marching_cubes` (line 389). -/
def FRONT_TOP_LEFT : Nat := 128

/-- Corner-to-bit constant from `marching_cubes` (line 390). -/
def FRONT_TOP_RIGHT : Nat := 64

/-- Corner-to-bit constant from `marching_cubes` (line 392). -/
def BACK_BOTTOM_LEFT : Nat := 1

/-- Corner-to-bit constant from `marching_cubes` (line 393). -/
def BACK_BOTTOM_RIGHT : Nat := 2

/-- Corner-to-bit constant from `marching_cubes` (line 394). -/
def BACK_TOP_LEFT : Nat := 16

/-- Corner-to-bit constant from `marching_cubes` (line 395). -/
def BACK_TOP_RIGHT : Nat := 32

/-- The configuration bitmask `case` built by `marching_cubes` for the cube
with origin `(x, y, z)` (lines 404-420): starting from `0`, one `case |= BIT`
per corner whose field value is strictly below the isovalue, in source
order. -/
def cube_case (scalar_field : ℚ → ℚ → ℚ → ℚ) (isovalue x y z stepsize : ℚ) :
    Nat :=
  let case0 : Nat := 0
  let case1 := if scalar_field x y z < isovalue then
    case0 ||| BACK_BOTTOM_LEFT else case0
  let case2 := if scalar_field (x + stepsize) y z < isovalue then
    case1 ||| BACK_BOTTOM_RIGHT else case1
  let case3 := if scalar_field x (y + stepsize) z < isovalue then
    case2 ||| BACK_TOP_LEFT else case2
  let case4 := if scalar_field (x + stepsize) (y + stepsize) z < isovalue then
    case3 ||| BACK_TOP_RIGHT else case3
  let case5 := if scalar_field x y (z + stepsize) < isovalue then
    case4 ||| FRONT_BOTTOM_LEFT else case4
  let case6 := if scalar_field (x + stepsize) y (z + stepsize) < isovalue then
    case5 ||| FRONT_BOTTOM_RIGHT else case5
  let case7 := if scalar_field x (y + stepsize) (z + stepsize) < isovalue then
    case6 ||| FRONT_TOP_LEFT else case6
  if scalar_field (x + stepsize) (y + stepsize) (z + stepsize) < isovalue then
    case7 ||| FRONT_TOP_RIGHT else case7

/-- Embedding of `marching_cubes(scalar_field, isovalue, volume_min, volume_max, stepsize)`
(lines 357-429): iterate cube origins with `y` outermost, then `x`, then `z`,
each over `np.arange(volume_min, volume_max, stepsize)`; classify the cube,
look up its edge-index list, convert it to vertex coordinates, and append
them to the accumulated mesh.  The internal lookup is always in range (the
bitmask is an OR of the eight single-bit constants), so the `getD []`
default models the never-raised `IndexError` branch and is never
consulted. -/
def marching_cubes (scalar_field : ℚ → ℚ → ℚ → ℚ)
    (isovalue volume_min volume_max stepsize : ℚ) : List ℚ :=
  (arange volume_min volume_max stepsize).flatMap (fun y =>
    (arange volume_min volume_max stepsize).flatMap (fun x =>
      (arange volume_min volume_max stepsize).flatMap (fun z =>
        let case := cube_case scalar_field isovalue x y z stepsize
        let edge_indices := (_lookup_configuration (case : Int)).getD []
        _get_vertex_positions edge_indices (x, y, z) stepsize)))

/-- Vertex type used by `compute_normals` (`glm.vec3`, exact components). -/
abbrev Vec3 : Type := ℚ × ℚ × ℚ

/-- Embedding of `glm.cross(a, b)`: the standard 3-component cross product. -/
def glm_cross (a b : Vec3) : Vec3 :=
  (a.2.1 * b.2.2 - a.2.2 * b.2.1,
   a.2.2 * b.1 - a.1 * b.2.2,
   a.1 * b.2.1 - a.2.1 * b.1)

/-- Embedding of `compute_normals(vertices)` (lines 432-470): for each stride-9 triangle
block, build the three vertices, form the two edges `B - A` and `C - A`,
normalize their cross product, and append the resulting normal once per
vertex of the triangle.  `np.arange(0, len(vertices), 9)` is the list of
multiples of `9` below `len(vertices)`, of length `⌈len/9⌉ = (len+8)/9`.
`glm.normalize` is passed in as `glm_normalize` (see the file comment);
the source contains no test for a degenerate (zero-area) triangle, so the
function is applied to whatever cross product arises, including the zero
vector on which the library's result is undefined. -/
def compute_normals (glm_normalize : Vec3 → Vec3) (vertices : List ℚ) :
    List ℚ :=
  ((List.range ((vertices.length + 8) / 9)).map (fun k => k * 9)).flatMap
    (fun index =>
      let vertexA : Vec3 :=
        (vertices.getD index 0, vertices.getD (index + 1) 0,
         vertices.getD (index + 2) 0)
      let vertexB : Vec3 :=
        (vertices.getD (index + 3) 0, vertices.getD (index + 4) 0,
         vertices.getD (index + 5) 0)
      let vertexC : Vec3 :=
        (vertices.getD (index + 6) 0, vertices.getD (index + 7) 0,
         vertices.getD (index + 8) 0)
      let edgeA := vertexB - vertexA
      let edgeB := vertexC - vertexA
      let normal := glm_normalize (glm_cross edgeA edgeB)
      [normal.1, normal.2.1, normal.2.2,
       normal.1, normal.2.1, normal.2.2,
       normal.1, normal.2.1, normal.2.2])

/-- Structured content of the PLY file written by `writePLY` (lines
473-522): the header counts, the per-vertex data lines (6 reals each), and
the per-face index lines (the literal leading `3` and three vertex
indices). -/
structure PLYFile where
  num_vertices : Nat
  num_faces : Nat
  vertex_records : List (List ℚ)
  face_records : List (Nat × Nat × Nat × Nat)
  deriving DecidableEq

/-- Embedding of `writePLY(vertices, normals, filename, comment)` (lines 473-522),
modelled as the structured content of the file it writes; the filename,
path resolution and comment line are file-system concerns outside the
mesh data.  `num_vertices = len(vertices)/3` and `num_faces =
num_vertices/3` use Python integer division.  The vertex loop iterates
`i` over `np.arange(0, len(vertices), 3)` and writes
`vertices[i..i+2]` then `normals[i..i+2]`; the face loop iterates `i`
over `np.arange(0, num_vertices, 3)` and writes `3 i i+1 i+2`.  List
accesses are modelled with a default of `0`, consulted only when the
Python code would raise `IndexError` mid-write. -/
def writePLY (vertices normals : List ℚ) : PLYFile :=
  let num_vertices := vertices.length / 3
  let num_faces := num_vertices / 3
  { num_vertices := num_vertices
    num_faces := num_faces
    vertex_records :=
      ((List.range ((vertices.length + 2) / 3)).map (fun k => k * 3)).map
        (fun i =>
          [vertices.getD i 0, vertices.getD (i + 1) 0, vertices.getD (i + 2) 0,
           normals.getD i 0, normals.getD (i + 1) 0, normals.getD (i + 2) 0])
    face_records :=
      ((List.range ((num_vertices + 2) / 3)).map (fun k => k * 3)).map
        (fun i => (3, i, i + 1, i + 2)) }

/-! ### Facts about the case table -/

lemma lookup_table_length : lookup_table.length = 256 := by rfl

lemma lookup_table_rows :
    ∀ cfg ∈ lookup_table, cfg.length % 3 = 0 ∧ ∀ e ∈ cfg, e ≤ 11 := by
  decide

lemma lookup_isSome {n : Nat} (h : n < 256) :
    (_lookup_configuration (n : Int)).isSome = true := by
  have h0 : (0 : Int) ≤ (n : Int) := Int.natCast_nonneg n
  have ht : ((n : Int)).toNat = n := Int.toNat_natCast n
  simp only [_lookup_configuration, pyGet, h0, if_pos, ht]
  rw [List.get?_eq_getElem?]
  simp [lookup_table_length, h]

/-- C1: proved as stated: for every configuration `c` in `[0, 255]`, the case-table lookup
returns a list whose length is a multiple of 3 and all of whose elements lie
in `[0, 11]`; the lookups at `0` and at `255` both return the empty list. -/
theorem lookup_configuration_spec :
    (∀ case : Int, 0 ≤ case → case ≤ 255 →
      ∃ cfg, _lookup_configuration case = some cfg ∧
        cfg.length % 3 = 0 ∧ ∀ e ∈ cfg, e ≤ 11) ∧
    _lookup_configuration 0 = some [] ∧
    _lookup_configuration 255 = some [] := by
  refine ⟨?_, by rfl, by rfl⟩
  intro case h0 h255
  have hlt : case.toNat < lookup_table.length := by
    rw [lookup_table_length]; omega
  refine ⟨lookup_table.get ⟨case.toNat, hlt⟩, ?_, ?_⟩
  · simp only [_lookup_configuration, pyGet, h0, if_pos]
    exact List.get?_eq_get hlt
  · exact lookup_table_rows _ (lookup_table.get_mem _ _)

/-- Witness for `lookup_configuration_spec` at configuration `7`. -/
theorem lookup_configuration_spec_witness :
    ∃ cfg, _lookup_configuration 7 = some cfg ∧
      cfg.length % 3 = 0 ∧ ∀ e ∈ cfg, e ≤ 11 :=
  lookup_configuration_spec.1 7 (by decide) (by decide)

/-- C5 is violated by the code: a configuration index in `[-256, -1]` is
out of the documented range, yet `_lookup_configuration` silently resolves
it from the end of the table (Python negative indexing) instead of aborting:
`-2` yields row 254 and `-1` yields row 255.  Only indices above `255` or
below `-256` raise `IndexError`. -/
theorem lookup_configuration_negative_silent :
    _lookup_configuration (-2) = some [0, 3, 8] ∧
    _lookup_configuration (-1) = some [] ∧
    _lookup_configuration 256 = none ∧
    _lookup_configuration (-257) = none :=
  ⟨by rfl, by rfl, by rfl, by rfl⟩

/-! ### The configuration bitmask -/

/-- C2: proved as stated: the configuration built for the cube at origin `(x, y, z)` sets,
for each of the 8 corners, exactly the bit of the fixed corner-to-bit
assignment (back-bottom-left = 1, back-bottom-right = 2,
front-bottom-right = 4, front-bottom-left = 8, back-top-left = 16,
back-top-right = 32, front-top-right = 64, front-top-left = 128) iff the
scalar field's value at that corner is strictly less than the isovalue. -/
theorem cube_case_bits (scalar_field : ℚ → ℚ → ℚ → ℚ)
    (isovalue x y z s : ℚ) :
    ((cube_case scalar_field isovalue x y z s).testBit 0 = true ↔
      scalar_field x y z < isovalue) ∧
    ((cube_case scalar_field isovalue x y z s).testBit 1 = true ↔
      scalar_field (x + s) y z < isovalue) ∧
    ((cube_case scalar_field isovalue x y z s).testBit 2 = true ↔
      scalar_field (x + s) y (z + s) < isovalue) ∧
    ((cube_case scalar_field isovalue x y z s).testBit 3 = true ↔
      scalar_field x y (z + s) < isovalue) ∧
    ((cube_case scalar_field isovalue x y z s).testBit 4 = true ↔
      scalar_field x (y + s) z < isovalue) ∧
    ((cube_case scalar_field isovalue x y z s).testBit 5 = true ↔
      scalar_field (x + s) (y + s) z < isovalue) ∧
    ((cube_case scalar_field isovalue x y z s).testBit 6 = true ↔
      scalar_field (x + s) (y + s) (z + s) < isovalue) ∧
    ((cube_case scalar_field isovalue x y z s).testBit 7 = true ↔
      scalar_field x (y + s) (z + s) < isovalue) := by
  by_cases h1 : scalar_field x y z < isovalue <;>
  by_cases h2 : scalar_field (x + s) y z < isovalue <;>
  by_cases h3 : scalar_field x (y + s) z < isovalue <;>
  by_cases h4 : scalar_field (x + s) (y + s) z < isovalue <;>
  by_cases h5 : scalar_field x y (z + s) < isovalue <;>
  by_cases h6 : scalar_field (x + s) y (z + s) < isovalue <;>
  by_cases h7 : scalar_field x (y + s) (z + s) < isovalue <;>
  by_cases h8 : scalar_field (x + s) (y + s) (z + s) < isovalue <;>
  simp only [cube_case, h1, h2, h3, h4, h5, h6, h7, h8, if_true, if_false,
    ite_true, ite_false, iff_true, iff_false] <;>
  decide

/-- C9: proved as stated: the configuration bitmask is an OR of single-bit constants, so it
always lies in `[0, 255]` and the case-table lookup made by `marching_cubes`
is in range on every internal call: its `IndexError` branch is unreachable. -/
theorem cube_case_in_range (scalar_field : ℚ → ℚ → ℚ → ℚ)
    (isovalue x y z s : ℚ) :
    cube_case scalar_field isovalue x y z s ≤ 255 ∧
    (_lookup_configuration
      ((cube_case scalar_field isovalue x y z s : Nat) : Int)).isSome
      = true := by
  have h : cube_case scalar_field isovalue x y z s < 256 := by
    unfold cube_case
    split_ifs <;> decide
  exact ⟨by omega, lookup_isSome h⟩

/-! ### Vertex emission -/

lemma get_vertex_positions_cons (a : Nat) (l : List Nat) (x y z s : ℚ) :
    _get_vertex_positions (a :: l) (x, y, z) s =
      (let m := edge_midpoints.getD a (0, 0, 0);
        [x + s * m.1, y + s * m.2.1, z + s * m.2.2]) ++
      _get_vertex_positions l (x, y, z) s := rfl

lemma get_vertex_positions_length (configuration : List Nat)
    (c : ℚ × ℚ × ℚ) (s : ℚ) :
    (_get_vertex_positions configuration c s).length =
      3 * configuration.length := by
  obtain ⟨x, y, z⟩ := c
  induction configuration with
  | nil => rfl
  | cons a l ih =>
    rw [get_vertex_positions_cons]
    simp only [List.length_append, List.length_cons, ih]
    simp; ring

/-- C3: proved as stated: for every edge-index list with all elements in `[0, 11]`, every
cube origin and stepsize, `_get_vertex_positions` returns a flat list of
exactly 3 coordinates per input edge index, in input order, and the `i`-th
coordinate triple is the origin plus the stepsize times the fractional
midpoint offset that the 12-entry `edge_midpoints` table assigns to the
`i`-th edge index. -/
theorem get_vertex_positions_spec (configuration : List Nat) (x y z s : ℚ)
    (hcfg : ∀ e ∈ configuration, e ≤ 11) :
    (_get_vertex_positions configuration (x, y, z) s).length =
      3 * configuration.length ∧
    ∀ i, (hi : i < configuration.length) →
      ∃ m, edge_midpoints.get? (configuration.get ⟨i, hi⟩) = some m ∧
        ((_get_vertex_positions configuration (x, y, z) s).drop (3 * i)).take 3
          = [x + s * m.1, y + s * m.2.1, z + s * m.2.2] := by
  refine ⟨get_vertex_positions_length _ _ _, ?_⟩
  induction configuration with
  | nil => intro i hi; cases (Nat.not_lt_zero i) hi
  | cons a l ih =>
    intro i hi
    have ha : a ≤ 11 := hcfg a (by simp)
    have ha12 : a < edge_midpoints.length := by
      simp only [edge_midpoints, List.length_cons]; omega
    cases i with
    | zero =>
      have hgd : edge_midpoints.getD a (0, 0, 0) =
          edge_midpoints.get ⟨a, ha12⟩ := by
        rw [List.getD_eq_getElem?_getD, List.getElem?_eq_getElem ha12,
          Option.getD_some, List.get_eq_getElem]
      refine ⟨edge_midpoints.get ⟨a, ha12⟩, List.get?_eq_get ha12, ?_⟩
      rw [get_vertex_positions_cons]
      simp only [hgd, Nat.mul_zero, List.drop_zero]
      rfl
    | succ i =>
      have hi' : i < l.length := by simpa using hi
      obtain ⟨m, hm, hblock⟩ := ih (fun e he => hcfg e (by simp [he])) i hi'
      refine ⟨m, hm, ?_⟩
      rw [get_vertex_positions_cons]
      have h3 : 3 * (i + 1) = 3 * i + 1 + 1 + 1 := by ring
      simp only [h3]
      simpa using hblock

/-- Witness for `get_vertex_positions_spec` on the configuration
`[0, 8, 3]` (case 1 of the table) with origin `(0, 0, 0)`, stepsize `1`. -/
theorem get_vertex_positions_spec_witness :
    (∀ e ∈ [0, 8, 3], e ≤ 11) ∧
    ((_get_vertex_positions [0, 8, 3] (0, 0, 0) 1).length = 3 * 3 ∧
      ∀ i, (hi : i < ([0, 8, 3] : List Nat).length) →
        ∃ m, edge_midpoints.get? (([0, 8, 3] : List Nat).get ⟨i, hi⟩) = some m ∧
          ((_get_vertex_positions [0, 8, 3] (0, 0, 0) 1).drop (3 * i)).take 3
            = [0 + 1 * m.1, 0 + 1 * m.2.1, 0 + 1 * m.2.2]) :=
  ⟨by decide, get_vertex_positions_spec [0, 8, 3] 0 0 0 1 (by decide)⟩

/-! ### Missing input validation -/

lemma arange_eq_nil {start stop step : ℚ} (h : (stop - start) / step ≤ 0) :
    arange start stop step = [] := by
  unfold arange
  rw [Int.toNat_of_nonpos (Int.ceil_le.mpr (by exact_mod_cast h))]
  rfl

/-- C4 is violated by the code: `marching_cubes` performs no validation
of `stepsize` or of the volume bounds; with `stepsize ≤ 0` or
`volume_min ≥ volume_max` the `np.arange` lattice is empty, so the function
silently returns the empty mesh instead of rejecting the input with an
error (shown here for `stepsize = -1`, for `volume_min > volume_max`, and
for `volume_min = volume_max`). -/
theorem marching_cubes_no_validation :
    marching_cubes (fun _ _ _ => 0) 0 0 1 (-1) = [] ∧
    marching_cubes (fun _ _ _ => 0) 0 5 3 1 = [] ∧
    marching_cubes (fun _ _ _ => 0) 0 1 1 1 = [] := by
  refine ⟨?_, ?_, ?_⟩ <;>
  · unfold marching_cubes
    rw [arange_eq_nil (by norm_num)]
    rfl

/-! ### Normals -/

/-- C6 is violated by the code: `compute_normals` contains no test for a
near-zero cross product.  On a degenerate (zero-area) triangle it hands the
zero vector straight to `glm.normalize`, whose result there is undefined
(`nan` components in the library), and emits that undefined result three
times: the output is whatever the library returns on the zero vector, not a
detected deterministic fallback. -/
theorem compute_normals_degenerate (glm_normalize : Vec3 → Vec3) :
    compute_normals glm_normalize [0, 0, 0, 0, 0, 0, 0, 0, 0] =
      [(glm_normalize (0, 0, 0)).1, (glm_normalize (0, 0, 0)).2.1,
       (glm_normalize (0, 0, 0)).2.2,
       (glm_normalize (0, 0, 0)).1, (glm_normalize (0, 0, 0)).2.1,
       (glm_normalize (0, 0, 0)).2.2,
       (glm_normalize (0, 0, 0)).1, (glm_normalize (0, 0, 0)).2.1,
       (glm_normalize (0, 0, 0)).2.2] := by
  simp [compute_normals, glm_cross, List.range_succ, List.range_zero,
    List.flatMap_cons, List.flatMap_nil, List.map_cons, List.map_nil,
    List.getD, Prod.mk_sub_mk]

/-! ### Mesh and normal buffer invariants -/

lemma pyGet_mem {α : Type} {l : List α} {i : Int} {a : α}
    (h : pyGet l i = some a) : a ∈ l := by
  unfold pyGet at h
  split_ifs at h <;> exact List.get?_mem h

lemma lookup_len_mod (case : Int) :
    ((_lookup_configuration case).getD []).length % 3 = 0 := by
  cases hc : _lookup_configuration case with
  | none => simp
  | some cfg =>
    have hmem : cfg ∈ lookup_table := pyGet_mem hc
    simp only [Option.getD_some]
    exact (lookup_table_rows cfg hmem).1

lemma flatMap_length_dvd {α : Type} (l : List α) (g : α → List ℚ)
    (h : ∀ a ∈ l, 9 ∣ (g a).length) : 9 ∣ (l.flatMap g).length := by
  induction l with
  | nil => simp
  | cons a t ih =>
    simp only [List.flatMap_cons, List.length_append]
    exact Nat.dvd_add (h a (List.mem_cons_self a t))
      (ih fun b hb => h b (List.mem_cons_of_mem a hb))

lemma flatMap_block {α : Type} (l : List α) (g : α → List ℚ)
    (h : ∀ a ∈ l, (g a).length = 9) :
    (l.flatMap g).length = 9 * l.length ∧
    ∀ k, (hk : k < l.length) →
      ((l.flatMap g).drop (9 * k)).take 9 = g (l.get ⟨k, hk⟩) := by
  induction l with
  | nil => exact ⟨by simp, fun k hk => absurd hk (Nat.not_lt_zero k)⟩
  | cons a t ih =>
    have ha := h a (List.mem_cons_self a t)
    obtain ⟨ihlen, ihblk⟩ := ih fun b hb => h b (List.mem_cons_of_mem a hb)
    constructor
    · simp only [List.flatMap_cons, List.length_append, ha, ihlen,
        List.length_cons]
      ring
    · intro k hk
      cases k with
      | zero =>
        simp only [List.flatMap_cons, Nat.mul_zero, List.drop_zero]
        rw [← ha, List.take_left]
        rfl
      | succ k =>
        have hk' : k < t.length := by simpa using hk
        simp only [List.flatMap_cons]
        have h9 : 9 * (k + 1) = (g a).length + 9 * k := by rw [ha]; ring
        rw [h9, List.drop_append]
        exact ihblk k hk'

/-- C7: proved as stated: every mesh returned by `marching_cubes` has length a multiple of
9; and on every vertex list whose length is a multiple of 9,
`compute_normals` returns a parallel list of exactly equal length in which
the `k`-th triangle's normal, `normalize(cross(B - A, C - A))` for its
vertices `A`, `B`, `C` in emission order, is written identically for all
three of the triangle's vertices. -/
theorem mesh_and_normals_spec :
    (∀ (scalar_field : ℚ → ℚ → ℚ → ℚ)
      (isovalue volume_min volume_max stepsize : ℚ),
      9 ∣ (marching_cubes scalar_field isovalue
        volume_min volume_max stepsize).length) ∧
    (∀ (glm_normalize : Vec3 → Vec3) (vertices : List ℚ),
      9 ∣ vertices.length →
      (compute_normals glm_normalize vertices).length = vertices.length ∧
      ∀ k, 9 * k < vertices.length →
        ∃ nrm : Vec3,
          nrm = glm_normalize (glm_cross
            ((vertices.getD (9 * k + 3) 0, vertices.getD (9 * k + 4) 0,
              vertices.getD (9 * k + 5) 0) -
             (vertices.getD (9 * k) 0, vertices.getD (9 * k + 1) 0,
              vertices.getD (9 * k + 2) 0))
            ((vertices.getD (9 * k + 6) 0, vertices.getD (9 * k + 7) 0,
              vertices.getD (9 * k + 8) 0) -
             (vertices.getD (9 * k) 0, vertices.getD (9 * k + 1) 0,
              vertices.getD (9 * k + 2) 0))) ∧
          ((compute_normals glm_normalize vertices).drop (9 * k)).take 9 =
            [nrm.1, nrm.2.1, nrm.2.2, nrm.1, nrm.2.1, nrm.2.2,
             nrm.1, nrm.2.1, nrm.2.2]) := by
  constructor
  · intro scalar_field isovalue volume_min volume_max stepsize
    unfold marching_cubes
    apply flatMap_length_dvd; intro y _
    apply flatMap_length_dvd; intro x _
    apply flatMap_length_dvd; intro z _
    dsimp only
    rw [get_vertex_positions_length]
    have hmod := lookup_len_mod
      ((cube_case scalar_field isovalue x y z stepsize : Nat) : Int)
    omega
  · intro glm_normalize vertices hdvd
    obtain ⟨m, hm⟩ := hdvd
    have hcn : compute_normals glm_normalize vertices =
        ((List.range ((vertices.length + 8) / 9)).map (fun k => k * 9)).flatMap
          (fun index =>
            let nrm := glm_normalize (glm_cross
              ((vertices.getD (index + 3) 0, vertices.getD (index + 4) 0,
                vertices.getD (index + 5) 0) -
               (vertices.getD index 0, vertices.getD (index + 1) 0,
                vertices.getD (index + 2) 0))
              ((vertices.getD (index + 6) 0, vertices.getD (index + 7) 0,
                vertices.getD (index + 8) 0) -
               (vertices.getD index 0, vertices.getD (index + 1) 0,
                vertices.getD (index + 2) 0)))
            [nrm.1, nrm.2.1, nrm.2.2, nrm.1, nrm.2.1, nrm.2.2,
             nrm.1, nrm.2.1, nrm.2.2]) := rfl
    have hq : (vertices.length + 8) / 9 = m := by omega
    have hllen : ((List.range ((vertices.length + 8) / 9)).map
        (fun k => k * 9)).length = m := by
      simp [hq]
    obtain ⟨hlen, hblk⟩ := flatMap_block
      ((List.range ((vertices.length + 8) / 9)).map (fun k => k * 9))
      (fun index =>
        let nrm := glm_normalize (glm_cross
          ((vertices.getD (index + 3) 0, vertices.getD (index + 4) 0,
            vertices.getD (index + 5) 0) -
           (vertices.getD index 0, vertices.getD (index + 1) 0,
            vertices.getD (index + 2) 0))
          ((vertices.getD (index + 6) 0, vertices.getD (index + 7) 0,
            vertices.getD (index + 8) 0) -
           (vertices.getD index 0, vertices.getD (index + 1) 0,
            vertices.getD (index + 2) 0)))
        [nrm.1, nrm.2.1, nrm.2.2, nrm.1, nrm.2.1, nrm.2.2,
         nrm.1, nrm.2.1, nrm.2.2]) (fun a _ => rfl)
    constructor
    · rw [hcn, hlen, hllen]; omega
    · intro k hk
      have hk' : k < ((List.range ((vertices.length + 8) / 9)).map
          (fun k => k * 9)).length := by omega
      have hget : ((List.range ((vertices.length + 8) / 9)).map
          (fun k => k * 9)).get ⟨k, hk'⟩ = k * 9 := by
        simp [List.get_eq_getElem]
      refine ⟨_, rfl, ?_⟩
      rw [hcn, hblk k hk', hget]
      simp only [Nat.mul_comm]

/-- Witness for `mesh_and_normals_spec` on a 9-element vertex list. -/
theorem mesh_and_normals_spec_witness :
    (9 ∣ ([(0 : ℚ), 0, 0, 0, 0, 0, 0, 0, 0] : List ℚ).length) ∧
    (compute_normals (fun v => v) [0, 0, 0, 0, 0, 0, 0, 0, 0]).length =
      ([(0 : ℚ), 0, 0, 0, 0, 0, 0, 0, 0] : List ℚ).length :=
  ⟨⟨1, rfl⟩, ((mesh_and_normals_spec.2 (fun v => v)
      [0, 0, 0, 0, 0, 0, 0, 0, 0]) ⟨1, rfl⟩).1⟩

/-! ### PLY serialization -/

/-- C8: proved as stated: for parallel vertex/normal sequences (equal length, a whole
number of coordinate triples), the written file declares
`vertex count = len(vertices)/3` and `face count = vertex_count/3`, its body
carries one 6-real record (position then normal) per vertex, and face
record `k` begins with the literal `3` followed by vertex indices `3k`,
`3k+1`, `3k+2` for every `k` below the declared face count. -/
theorem writePLY_spec (vertices normals : List ℚ)
    (hlen : normals.length = vertices.length) (hdvd : 3 ∣ vertices.length) :
    (writePLY vertices normals).num_vertices = vertices.length / 3 ∧
    (writePLY vertices normals).num_faces = vertices.length / 3 / 3 ∧
    (writePLY vertices normals).vertex_records.length =
      vertices.length / 3 ∧
    (∀ j, j < vertices.length / 3 →
      (writePLY vertices normals).vertex_records.get? j =
        some [vertices.getD (3 * j) 0, vertices.getD (3 * j + 1) 0,
              vertices.getD (3 * j + 2) 0,
              normals.getD (3 * j) 0, normals.getD (3 * j + 1) 0,
              normals.getD (3 * j + 2) 0]) ∧
    (∀ k, k < vertices.length / 3 / 3 →
      (writePLY vertices normals).face_records.get? k =
        some (3, 3 * k, 3 * k + 1, 3 * k + 2)) := by
  obtain ⟨t, ht⟩ := hdvd
  have hq3 : (vertices.length + 2) / 3 = vertices.length / 3 := by omega
  refine ⟨rfl, rfl, ?_, ?_, ?_⟩
  · simp [writePLY, hq3]
  · intro j hj
    have hj' : j < (vertices.length + 2) / 3 := by omega
    simp only [writePLY]
    rw [List.get?_eq_getElem?]
    simp [List.getElem?_map, List.getElem?_range, hj', Nat.mul_comm]
  · intro k hk
    have hk' : k < (vertices.length / 3 + 2) / 3 := by omega
    simp only [writePLY]
    rw [List.get?_eq_getElem?]
    simp [List.getElem?_map, List.getElem?_range, hk', Nat.mul_comm]

/-- Witness for `writePLY_spec` on a one-triangle mesh. -/
theorem writePLY_spec_witness :
    (([(0 : ℚ), 0, 0, 0, 0, 0, 0, 0, 0] : List ℚ).length =
      ([(1 : ℚ), 2, 3, 4, 5, 6, 7, 8, 9] : List ℚ).length) ∧
    (3 ∣ ([(1 : ℚ), 2, 3, 4, 5, 6, 7, 8, 9] : List ℚ).length) ∧
    (writePLY [1, 2, 3, 4, 5, 6, 7, 8, 9]
        [0, 0, 0, 0, 0, 0, 0, 0, 0]).num_vertices =
      ([(1 : ℚ), 2, 3, 4, 5, 6, 7, 8, 9] : List ℚ).length / 3 :=
  ⟨rfl, ⟨3, rfl⟩, (writePLY_spec [1, 2, 3, 4, 5, 6, 7, 8, 9]
      [0, 0, 0, 0, 0, 0, 0, 0, 0] rfl ⟨3, rfl⟩).1⟩

/-! ### Vertex coordinate bounds -/

lemma mem_arange {t start stop step : ℚ} (hs : 0 < step)
    (ht : t ∈ arange start stop step) : start ≤ t ∧ t < stop := by
  unfold arange at ht
  obtain ⟨i, hi, rfl⟩ := List.mem_map.mp ht
  have hilt : i < (⌈(stop - start) / step⌉).toNat := List.mem_range.mp hi
  constructor
  · have h0 : (0 : ℚ) ≤ (i : ℚ) * step := mul_nonneg (by positivity) hs.le
    linarith
  · have hceil : (i : Int) < ⌈(stop - start) / step⌉ := Int.lt_toNat.mp hilt
    have h1 : ((i : ℚ)) ≤ (⌈(stop - start) / step⌉ : ℚ) - 1 := by
      have h : (i : Int) ≤ ⌈(stop - start) / step⌉ - 1 := by omega
      exact_mod_cast h
    have h2 : ((⌈(stop - start) / step⌉ : ℚ)) - 1 < (stop - start) / step := by
      have := Int.ceil_lt_add_one ((stop - start) / step)
      linarith
    have h3 : (i : ℚ) < (stop - start) / step := lt_of_le_of_lt h1 h2
    have h4 : (i : ℚ) * step < stop - start := by
      have hmul := mul_lt_mul_of_pos_right h3 hs
      rwa [div_mul_cancel₀ _ (ne_of_gt hs)] at hmul
    linarith

lemma edge_midpoints_bounds :
    ∀ m ∈ edge_midpoints, 0 ≤ m.1 ∧ m.1 ≤ 1 ∧ 0 ≤ m.2.1 ∧ m.2.1 ≤ 1 ∧
      0 ≤ m.2.2 ∧ m.2.2 ≤ 1 := by
  intro m hm
  fin_cases hm <;> norm_num

lemma edge_midpoints_getD_bounds (index : Nat) :
    0 ≤ (edge_midpoints.getD index (0, 0, 0)).1 ∧
    (edge_midpoints.getD index (0, 0, 0)).1 ≤ 1 ∧
    0 ≤ (edge_midpoints.getD index (0, 0, 0)).2.1 ∧
    (edge_midpoints.getD index (0, 0, 0)).2.1 ≤ 1 ∧
    0 ≤ (edge_midpoints.getD index (0, 0, 0)).2.2 ∧
    (edge_midpoints.getD index (0, 0, 0)).2.2 ≤ 1 := by
  rcases h : edge_midpoints[index]? with _ | m
  · simp only [List.getD_eq_getElem?_getD, h, Option.getD_none]
    norm_num
  · have hm : m ∈ edge_midpoints := List.getElem?_mem h
    simp only [List.getD_eq_getElem?_getD, h, Option.getD_some]
    exact edge_midpoints_bounds m hm

lemma mem_get_vertex_positions {v : ℚ} {cfg : List Nat} {x y z s : ℚ}
    (hv : v ∈ _get_vertex_positions cfg (x, y, z) s) :
    ∃ c e, (c = x ∨ c = y ∨ c = z) ∧ 0 ≤ e ∧ e ≤ 1 ∧ v = c + s * e := by
  unfold _get_vertex_positions at hv
  simp only [List.mem_flatMap, List.mem_cons, List.not_mem_nil, or_false]
    at hv
  obtain ⟨index, -, hv⟩ := hv
  obtain ⟨hx0, hx1, hy0, hy1, hz0, hz1⟩ := edge_midpoints_getD_bounds index
  rcases hv with rfl | rfl | rfl
  · exact ⟨x, _, Or.inl rfl, hx0, hx1, rfl⟩
  · exact ⟨y, _, Or.inr (Or.inl rfl), hy0, hy1, rfl⟩
  · exact ⟨z, _, Or.inr (Or.inr rfl), hz0, hz1, rfl⟩

/-- C10: proved as stated: with a positive stepsize and a nonempty volume, every
coordinate of every vertex emitted by `marching_cubes` lies in
`[volume_min, volume_max + stepsize]`: a cube origin always lies in
`[volume_min, volume_max)` and a midpoint offset in `[0, 1]`, so a vertex
can exceed `volume_max` by at most one stepsize and never falls below
`volume_min`. -/
theorem marching_cubes_vertex_bounds (scalar_field : ℚ → ℚ → ℚ → ℚ)
    (isovalue volume_min volume_max stepsize : ℚ)
    (hstep : 0 < stepsize) (hvol : volume_min < volume_max) :
    ∀ v ∈ marching_cubes scalar_field isovalue volume_min volume_max
        stepsize,
      volume_min ≤ v ∧ v ≤ volume_max + stepsize := by
  intro v hv
  unfold marching_cubes at hv
  simp only [List.mem_flatMap] at hv
  obtain ⟨y, hy, x, hx, z, hz, hv⟩ := hv
  have hyb := mem_arange hstep hy
  have hxb := mem_arange hstep hx
  have hzb := mem_arange hstep hz
  obtain ⟨c, e, hc, he0, he1, rfl⟩ := mem_get_vertex_positions hv
  have hse : 0 ≤ stepsize * e := mul_nonneg hstep.le he0
  have hse1 : stepsize * e ≤ stepsize := by nlinarith
  rcases hc with rfl | rfl | rfl <;> constructor <;> linarith

lemma arange_unit : arange 0 1 1 = [0] := by
  norm_num [arange, List.range_succ, List.range_zero, List.flatMap_cons,
    List.flatMap_nil, List.map_cons, List.map_nil]

lemma cube_case_unit :
    cube_case (fun x y z => x + y + z) (1 / 2) 0 0 0 1 = 1 := by
  unfold cube_case
  norm_num [BACK_BOTTOM_LEFT, BACK_BOTTOM_RIGHT, BACK_TOP_LEFT,
    BACK_TOP_RIGHT, FRONT_BOTTOM_LEFT, FRONT_BOTTOM_RIGHT, FRONT_TOP_LEFT,
    FRONT_TOP_RIGHT]

lemma gvp_unit : _get_vertex_positions [0, 8, 3] (0, 0, 0) 1 =
    [1 / 2, 0, 0, 0, 1 / 2, 0, 0, 0, 1 / 2] := by
  norm_num [_get_vertex_positions, edge_midpoints, List.flatMap_cons,
    List.flatMap_nil, List.getD]

lemma mesh_unit : marching_cubes (fun x y z => x + y + z) (1 / 2) 0 1 1 =
    [1 / 2, 0, 0, 0, 1 / 2, 0, 0, 0, 1 / 2] := by
  unfold marching_cubes
  rw [arange_unit]
  simp only [List.flatMap_cons, List.flatMap_nil, List.append_nil]
  rw [cube_case_unit]
  have hlook : (_lookup_configuration ((1 : Nat) : Int)).getD [] =
      [0, 8, 3] := by rfl
  rw [hlook, gvp_unit]

/-- Witness for `marching_cubes_vertex_bounds` on a one-cube lattice whose
single inside corner produces configuration 1. -/
theorem marching_cubes_vertex_bounds_witness :
    (0 : ℚ) < 1 ∧ (0 : ℚ) < 1 ∧
    ((1 : ℚ) / 2 ∈ marching_cubes (fun x y z => x + y + z) (1 / 2) 0 1 1) ∧
    ((0 : ℚ) ≤ 1 / 2 ∧ (1 : ℚ) / 2 ≤ 1 + 1) :=
  ⟨by decide, by decide, by rw [mesh_unit]; exact List.mem_cons_self _ _,
   marching_cubes_vertex_bounds (fun x y z => x + y + z) (1 / 2) 0 1 1
     (by decide) (by decide) (1 / 2)
     (by rw [mesh_unit]; exact List.mem_cons_self _ _)⟩
